import Mathlib

/-!
Shallow embedding of `src/common/dsp/filters/VintageLadders.cpp` (the four
vintage Moog-ladder filter models of the surge synthesizer) and proofs of the
spec claims about it.

Modelling conventions:
* Floating-point arithmetic is idealised as exact rational arithmetic (`ℚ`).
* Host-provided functions and constants that the core only consumes — the
  tuning pitch-to-frequency table `note_to_pitch_ignoring_tuning`, the library
  functions `tanh` and `exp`, the numeric constants `M_PI`, `MIDI_0_FREQ`,
  `dsamplerate_os`, `dsamplerate_os_inv` — are packaged in a `Host` record and
  passed explicitly; every theorem quantifies over them.
* The fixed-width SSE batch state `QuadFilterUnitState` becomes a record of
  coefficient planes, register planes and the per-lane `active` mask; the
  per-lane unroll loops of the `process` functions become per-lane `if`s.
* Fixed-count C loops are unrolled into `let` chains, preserving the exact
  read/write order of the source.
-/

namespace VintageLadder

/-- Host-supplied functions and constants consumed by the filter core. -/
structure Host where
  note_to_pitch_ignoring_tuning : ℚ → ℚ
  MIDI_0_FREQ : ℚ
  dsamplerate_os : ℚ
  dsamplerate_os_inv : ℚ
  pi : ℚ
  tanh : ℚ → ℚ
  exp : ℚ → ℚ

/-- The 4-lane batch state `QuadFilterUnitState`: `nC` coefficient planes,
`nR` register planes, and the per-lane active mask. -/
structure QFUState (nC nR : ℕ) where
  C : Fin nC → Fin 4 → ℚ
  R : Fin nR → Fin 4 → ℚ
  active : Fin 4 → Bool

namespace Common

/-- Modelled from the spec: `limit_range` comes from `vt_dsp/basic_dsp.h`,
which is part of the repository but not under `src/`; the spec says
out-of-range inputs are "silently clamped" to the given interval. -/
def limit_range (x lo hi : ℚ) : ℚ := max lo (min x hi)

/-- `VintageLadder::Common::clampedFrequency`. -/
def clampedFrequency (cfg : Host) (pitch : ℚ) : ℚ :=
  let freq := cfg.note_to_pitch_ignoring_tuning (pitch + 69) * cfg.MIDI_0_FREQ
  limit_range freq 5 (cfg.dsamplerate_os * 0.3)

end Common

namespace RK

/-- The four RK coefficients (`rkm_cutoff`, `rkm_reso`, `rkm_sat`,
`rkm_satinv`). -/
structure Coeff where
  cutoff : ℚ
  reso : ℚ
  sat : ℚ
  satinv : ℚ

/-- The four RK registers `state[0..3]` (the ladder stage outputs y1..y4). -/
@[ext]
structure State where
  y1 : ℚ
  y2 : ℚ
  y3 : ℚ
  y4 : ℚ

/-- `VintageLadder::RK::makeCoefficients`. -/
def makeCoefficients (cfg : Host) (freq reso : ℚ) : Coeff :=
  let pitch := Common.clampedFrequency cfg freq
  { cutoff := pitch * 2 * cfg.pi
    reso := reso * 6
    sat := 3
    satinv := 0.3333333333 }

/-- `VintageLadder::RK::clip`. -/
def clip (value saturation saturationinverse : ℚ) : ℚ :=
  let v2 := if value * saturationinverse > 1 then 1
            else if value * saturationinverse < -1 then -1
            else value * saturationinverse
  saturation * (v2 - (1/3) * v2 * v2 * v2)

/-- `VintageLadder::RK::calculateDerivatives`. -/
def calculateDerivatives (input : ℚ) (state : State)
    (cutoff resonance saturation saturationInv : ℚ) : State :=
  let satstate0 := clip state.y1 saturation saturationInv
  let satstate1 := clip state.y2 saturation saturationInv
  let satstate2 := clip state.y3 saturation saturationInv
  { y1 := cutoff * (clip (input - resonance * state.y4) saturation saturationInv - satstate0)
    y2 := cutoff * (satstate0 - satstate1)
    y3 := cutoff * (satstate1 - satstate2)
    y4 := cutoff * (satstate2 - clip state.y4 saturation saturationInv) }

/-- The per-component update `tempState[i] = state[i] + c * deriv[i]` of
`rungekutteSolver`'s intermediate loops. -/
def axpy (s : State) (c : ℚ) (d : State) : State :=
  { y1 := s.y1 + c * d.y1
    y2 := s.y2 + c * d.y2
    y3 := s.y3 + c * d.y3
    y4 := s.y4 + c * d.y4 }

/-- `VintageLadder::RK::rungekutteSolver` (`stepSize` stands for the global
`dsamplerate_os_inv`). -/
def rungekutteSolver (stepSize input : ℚ) (state : State)
    (cutoff resonance sat satInv : ℚ) : State :=
  let deriv1 := calculateDerivatives input state cutoff resonance sat satInv
  let temp1 := axpy state (0.5 * stepSize) deriv1
  let deriv2 := calculateDerivatives input temp1 cutoff resonance sat satInv
  let temp2 := axpy state (0.5 * stepSize) deriv2
  let deriv3 := calculateDerivatives input temp2 cutoff resonance sat satInv
  let temp3 := axpy state stepSize deriv3
  let deriv4 := calculateDerivatives input temp3 cutoff resonance sat satInv
  { y1 := state.y1 + (1/6) * stepSize * (deriv1.y1 + 2 * deriv2.y1 + 2 * deriv3.y1 + deriv4.y1)
    y2 := state.y2 + (1/6) * stepSize * (deriv1.y2 + 2 * deriv2.y2 + 2 * deriv3.y2 + deriv4.y2)
    y3 := state.y3 + (1/6) * stepSize * (deriv1.y3 + 2 * deriv2.y3 + 2 * deriv3.y3 + deriv4.y3)
    y4 := state.y4 + (1/6) * stepSize * (deriv1.y4 + 2 * deriv2.y4 + 2 * deriv3.y4 + deriv4.y4) }

/-- Register plane layout of the RK model: `f->R[0..3]` hold `state[0..3]`. -/
def packState (s : State) : Fin 4 → ℚ := ![s.y1, s.y2, s.y3, s.y4]

/-- Lane `v`'s registers, read back into the solver state. -/
def unpackState (f : QFUState 4 4) (v : Fin 4) : State :=
  { y1 := f.R 0 v, y2 := f.R 1 v, y3 := f.R 2 v, y4 := f.R 3 v }

/-- `VintageLadder::RK::process`. `out0` stands for the indeterminate initial
contents of the stack array `out`, which the source never writes for inactive
lanes. Returns the packed output vector and the updated batch state. -/
def process (cfg : Host) (f : QFUState 4 4) (inm out0 : Fin 4 → ℚ) :
    (Fin 4 → ℚ) × QFUState 4 4 :=
  let res : Fin 4 → State := fun v =>
    rungekutteSolver cfg.dsamplerate_os_inv (inm v) (unpackState f v)
      (f.C 0 v) (f.C 1 v) (f.C 2 v) (f.C 3 v)
  ( fun v => if f.active v then (res v).y4 else out0 v
  , { f with R := fun i v => if f.active v then packState (res v) i else f.R i v } )

end RK

namespace Huov

/-- The six Huovilainen coefficients (`h_cutoff`, `h_res`, `h_thermal`,
`h_tune`, `h_acr`, `h_resquad`). -/
structure Coeff where
  cutoff : ℚ
  res : ℚ
  thermal : ℚ
  tune : ℚ
  acr : ℚ
  resquad : ℚ

/-- The 13 Huovilainen registers: `stage[0..3]` at plane offset 0,
`stageTanh[0..2]` at offset 4, `delay[0..5]` at offset 7. -/
structure State where
  stage0 : ℚ
  stage1 : ℚ
  stage2 : ℚ
  stage3 : ℚ
  stageTanh0 : ℚ
  stageTanh1 : ℚ
  stageTanh2 : ℚ
  delay0 : ℚ
  delay1 : ℚ
  delay2 : ℚ
  delay3 : ℚ
  delay4 : ℚ
  delay5 : ℚ

/-- `VintageLadder::Huov::makeCoefficients`. -/
def makeCoefficients (cfg : Host) (freq reso : ℚ) : Coeff :=
  let cutoff := Common.clampedFrequency cfg freq
  let reso1 := Common.limit_range reso 0 0.994
  let fc := cutoff * cfg.dsamplerate_os_inv
  let f := fc * 0.5
  let fc2 := fc * fc
  let fc3 := fc * fc * fc
  let fcr := 1.8730 * fc3 + 0.4955 * fc2 - 0.6490 * fc + 0.9988
  let acr := -3.9364 * fc2 + 1.8409 * fc + 0.9968
  let thermal := 0.000025
  let tune := (1 - cfg.exp (-(2 * cfg.pi * f * fcr))) / thermal
  { cutoff := cutoff
    res := reso1
    thermal := thermal
    tune := tune
    acr := acr
    resquad := 4 * reso1 * acr }

/-- One iteration of the `for (int j = 0; j < 2; j++)` loop body of
`VintageLadder::Huov::processCore`, with the inner `k`-loop unrolled in
source order. -/
def pass (tanh : ℚ → ℚ) (inp resQuad thermal tune : ℚ) (s : State) : State :=
  let input0 := inp - resQuad * s.delay5
  let stage0 := s.delay0 + tune * (tanh (input0 * thermal) - s.stageTanh0)
  let delay0 := stage0
  let stageTanh0 := tanh (stage0 * thermal)
  let stage1 := s.delay1 + tune * (stageTanh0 - s.stageTanh1)
  let delay1 := stage1
  let stageTanh1 := tanh (stage1 * thermal)
  let stage2 := s.delay2 + tune * (stageTanh1 - s.stageTanh2)
  let delay2 := stage2
  let stageTanh2 := tanh (stage2 * thermal)
  let stage3 := s.delay3 + tune * (stageTanh2 - tanh (s.delay3 * thermal))
  let delay3 := stage3
  let delay5 := (stage3 + s.delay4) * 0.5
  let delay4 := stage3
  { stage0, stage1, stage2, stage3, stageTanh0, stageTanh1, stageTanh2,
    delay0, delay1, delay2, delay3, delay4, delay5 }

/-- `VintageLadder::Huov::processCore`: the loop body runs twice, the return
value is `delay[5]` afterwards. -/
def processCore (cfg : Host) (inp : ℚ) (c : Coeff) (s : State) : ℚ × State :=
  let s1 := pass cfg.tanh inp c.resquad c.thermal c.tune s
  let s2 := pass cfg.tanh inp c.resquad c.thermal c.tune s1
  (s2.delay5, s2)

/-- Register plane layout of the Huovilainen model (offsets 0 / 4 / 7). -/
def packState (s : State) : Fin 13 → ℚ :=
  ![s.stage0, s.stage1, s.stage2, s.stage3,
    s.stageTanh0, s.stageTanh1, s.stageTanh2,
    s.delay0, s.delay1, s.delay2, s.delay3, s.delay4, s.delay5]

/-- Lane `v`'s registers, read back into the scalar-step state. -/
def unpackState (f : QFUState 6 13) (v : Fin 4) : State :=
  { stage0 := f.R 0 v, stage1 := f.R 1 v, stage2 := f.R 2 v, stage3 := f.R 3 v
    stageTanh0 := f.R 4 v, stageTanh1 := f.R 5 v, stageTanh2 := f.R 6 v
    delay0 := f.R 7 v, delay1 := f.R 8 v, delay2 := f.R 9 v
    delay3 := f.R 10 v, delay4 := f.R 11 v, delay5 := f.R 12 v }

/-- Lane `v`'s coefficients. -/
def unpackCoeff (f : QFUState 6 13) (v : Fin 4) : Coeff :=
  { cutoff := f.C 0 v, res := f.C 1 v, thermal := f.C 2 v
    tune := f.C 3 v, acr := f.C 4 v, resquad := f.C 5 v }

/-- `VintageLadder::Huov::process` (`out0` is the indeterminate initial
contents of the stack array `out`). -/
def process (cfg : Host) (f : QFUState 6 13) (inm out0 : Fin 4 → ℚ) :
    (Fin 4 → ℚ) × QFUState 6 13 :=
  let res : Fin 4 → ℚ × State := fun v =>
    processCore cfg (inm v) (unpackCoeff f v) (unpackState f v)
  ( fun v => if f.active v then (res v).1 else out0 v
  , { f with R := fun i v => if f.active v then packState (res v).2 i else f.R i v } )

end Huov

namespace Kraj

/-- The seven Krajeski coefficients (`k_cutoff`, `k_reso`, `k_wc`, `k_g`,
`k_gRes`, `k_gComp`, `k_drive`). -/
structure Coeff where
  cutoff : ℚ
  reso : ℚ
  wc : ℚ
  g : ℚ
  gRes : ℚ
  gComp : ℚ
  drive : ℚ

/-- The 10 Krajeski registers: `state[0..4]` at plane offset 0,
`delay[0..4]` at offset 5. -/
structure State where
  state0 : ℚ
  state1 : ℚ
  state2 : ℚ
  state3 : ℚ
  state4 : ℚ
  delay0 : ℚ
  delay1 : ℚ
  delay2 : ℚ
  delay3 : ℚ
  delay4 : ℚ

/-- `VintageLadder::Kraj::makeCoefficients`. -/
def makeCoefficients (cfg : Host) (freq reso0 : ℚ) : Coeff :=
  let cutoff := Common.clampedFrequency cfg freq
  let reso := reso0 * 1.3
  let wc := 2 * cfg.pi * cutoff * cfg.dsamplerate_os_inv
  { cutoff := cutoff
    reso := reso
    wc := wc
    g := 0.9892 * wc - 0.4342 * wc ^ 2 + 0.1381 * wc ^ 3 - 0.0202 * wc ^ 4
    gRes := reso * (1.0029 + 0.0526 * wc - 0.926 * wc ^ 2 + 0.0218 * wc ^ 3)
    gComp := 1
    drive := 1 }

/-- `VintageLadder::Kraj::processCore`, with the fixed 4-iteration loop
unrolled in source order (`delay[4]` is never written). -/
def processCore (cfg : Host) (inp : ℚ) (c : Coeff) (s : State) : ℚ × State :=
  let state0 := cfg.tanh (c.drive * (inp - 4 * c.gRes * (s.state4 - c.gComp * inp)))
  let state1 := c.g * (0.3 / 1.3 * state0 + 1 / 1.3 * s.delay0 - s.state1) + s.state1
  let delay0 := state0
  let state2 := c.g * (0.3 / 1.3 * state1 + 1 / 1.3 * s.delay1 - s.state2) + s.state2
  let delay1 := state1
  let state3 := c.g * (0.3 / 1.3 * state2 + 1 / 1.3 * s.delay2 - s.state3) + s.state3
  let delay2 := state2
  let state4 := c.g * (0.3 / 1.3 * state3 + 1 / 1.3 * s.delay3 - s.state4) + s.state4
  let delay3 := state3
  ( state4
  , { state0, state1, state2, state3, state4,
      delay0, delay1, delay2, delay3, delay4 := s.delay4 } )

/-- Register plane layout of the Krajeski model (offsets 0 / 5). -/
def packState (s : State) : Fin 10 → ℚ :=
  ![s.state0, s.state1, s.state2, s.state3, s.state4,
    s.delay0, s.delay1, s.delay2, s.delay3, s.delay4]

/-- Lane `v`'s registers, read back into the scalar-step state. -/
def unpackState (f : QFUState 7 10) (v : Fin 4) : State :=
  { state0 := f.R 0 v, state1 := f.R 1 v, state2 := f.R 2 v
    state3 := f.R 3 v, state4 := f.R 4 v
    delay0 := f.R 5 v, delay1 := f.R 6 v, delay2 := f.R 7 v
    delay3 := f.R 8 v, delay4 := f.R 9 v }

/-- Lane `v`'s coefficients. -/
def unpackCoeff (f : QFUState 7 10) (v : Fin 4) : Coeff :=
  { cutoff := f.C 0 v, reso := f.C 1 v, wc := f.C 2 v, g := f.C 3 v
    gRes := f.C 4 v, gComp := f.C 5 v, drive := f.C 6 v }

/-- `VintageLadder::Kraj::process` (`out0` is the indeterminate initial
contents of the stack array `out`). -/
def process (cfg : Host) (f : QFUState 7 10) (inm out0 : Fin 4 → ℚ) :
    (Fin 4 → ℚ) × QFUState 7 10 :=
  let res : Fin 4 → ℚ × State := fun v =>
    processCore cfg (inm v) (unpackCoeff f v) (unpackState f v)
  ( fun v => if f.active v then (res v).1 else out0 v
  , { f with R := fun i v => if f.active v then packState (res v).2 i else f.R i v } )

end Kraj

namespace Improved

/-- The fixed thermal voltage constant of the Improved model. -/
def VT : ℚ := 0.312

/-- The five Improved-model coefficients (`i_cutoff`, `i_reso`, `i_x`, `i_g`,
`i_drive`). -/
structure Coeff where
  cutoff : ℚ
  reso : ℚ
  x : ℚ
  g : ℚ
  drive : ℚ

/-- The 12 Improved-model registers: `V[0..3]` at plane offset 0, `dV[0..3]`
at offset 4, `tV[0..3]` at offset 8. -/
structure State where
  v0 : ℚ
  v1 : ℚ
  v2 : ℚ
  v3 : ℚ
  dv0 : ℚ
  dv1 : ℚ
  dv2 : ℚ
  dv3 : ℚ
  tv0 : ℚ
  tv1 : ℚ
  tv2 : ℚ
  tv3 : ℚ

/-- `VintageLadder::Improved::makeCoefficients`. -/
def makeCoefficients (cfg : Host) (freq reso : ℚ) : Coeff :=
  let cutoff := Common.clampedFrequency cfg freq
  let x := cfg.pi * cutoff * cfg.dsamplerate_os_inv
  { cutoff := cutoff
    reso := reso * 4
    x := x
    g := 4 * cfg.pi * VT * cutoff * (1 - x) / (1 + x)
    drive := 1 }

/-- `VintageLadder::Improved::processCore`. -/
def processCore (cfg : Host) (inp : ℚ) (c : Coeff) (s : State) : ℚ × State :=
  let dV0 := -c.g * (cfg.tanh ((c.drive * inp + c.reso * s.v3) / (2 * VT)) + s.tv0)
  let v0 := s.v0 + (dV0 + s.dv0) * 0.5 * cfg.dsamplerate_os_inv
  let tv0 := cfg.tanh (v0 / (2 * VT))
  let dV1 := c.g * (tv0 - s.tv1)
  let v1 := s.v1 + (dV1 + s.dv1) * 0.5 * cfg.dsamplerate_os_inv
  let tv1 := cfg.tanh (v1 / (2 * VT))
  let dV2 := c.g * (tv1 - s.tv2)
  let v2 := s.v2 + (dV2 + s.dv2) * 0.5 * cfg.dsamplerate_os_inv
  let tv2 := cfg.tanh (v2 / (2 * VT))
  let dV3 := c.g * (tv2 - s.tv3)
  let v3 := s.v3 + (dV3 + s.dv3) * 0.5 * cfg.dsamplerate_os_inv
  let tv3 := cfg.tanh (v3 / (2 * VT))
  ( v3
  , { v0, v1, v2, v3, dv0 := dV0, dv1 := dV1, dv2 := dV2, dv3 := dV3,
      tv0, tv1, tv2, tv3 } )

/-- Register plane layout of the Improved model (offsets 0 / 4 / 8). -/
def packState (s : State) : Fin 12 → ℚ :=
  ![s.v0, s.v1, s.v2, s.v3, s.dv0, s.dv1, s.dv2, s.dv3,
    s.tv0, s.tv1, s.tv2, s.tv3]

/-- Lane `v`'s registers, read back into the scalar-step state. -/
def unpackState (f : QFUState 5 12) (v : Fin 4) : State :=
  { v0 := f.R 0 v, v1 := f.R 1 v, v2 := f.R 2 v, v3 := f.R 3 v
    dv0 := f.R 4 v, dv1 := f.R 5 v, dv2 := f.R 6 v, dv3 := f.R 7 v
    tv0 := f.R 8 v, tv1 := f.R 9 v, tv2 := f.R 10 v, tv3 := f.R 11 v }

/-- Lane `v`'s coefficients. -/
def unpackCoeff (f : QFUState 5 12) (v : Fin 4) : Coeff :=
  { cutoff := f.C 0 v, reso := f.C 1 v, x := f.C 2 v, g := f.C 3 v
    drive := f.C 4 v }

/-- `VintageLadder::Improved::process` (`out0` is the indeterminate initial
contents of the stack array `out`). -/
def process (cfg : Host) (f : QFUState 5 12) (inm out0 : Fin 4 → ℚ) :
    (Fin 4 → ℚ) × QFUState 5 12 :=
  let res : Fin 4 → ℚ × State := fun v =>
    processCore cfg (inm v) (unpackCoeff f v) (unpackState f v)
  ( fun v => if f.active v then (res v).1 else out0 v
  , { f with R := fun i v => if f.active v then packState (res v).2 i else f.R i v } )

end Improved

end VintageLadder

namespace VintageLadderSpec

/-!  Definitions written from the SPEC's words (not from the source), used on
the right-hand side of the refinement claims. -/

open VintageLadder (Host)

/-- Spec cubic soft-clip `S(x)`: "clamp `x/sat` to `[-1,1]`, then apply
`sat·(v − v³/3)`". -/
def S (sat x : ℚ) : ℚ :=
  let v := max (-1) (min (x / sat) 1)
  sat * (v - v ^ 3 / 3)

/-- The spec's RK ODE vector field at input `x`:
`y1' = k·(S(x − r·y4) − S(y1)); y2' = k·(S(y1) − S(y2));
 y3' = k·(S(y2) − S(y3)); y4' = k·(S(y3) − S(y4))`. -/
def rkField (x k r sat : ℚ) (y : VintageLadder.RK.State) : VintageLadder.RK.State :=
  { y1 := k * (S sat (x - r * y.y4) - S sat y.y1)
    y2 := k * (S sat y.y1 - S sat y.y2)
    y3 := k * (S sat y.y2 - S sat y.y3)
    y4 := k * (S sat y.y3 - S sat y.y4) }

/-- Componentwise sum of two RK states. -/
def addS (a b : VintageLadder.RK.State) : VintageLadder.RK.State :=
  { y1 := a.y1 + b.y1, y2 := a.y2 + b.y2, y3 := a.y3 + b.y3, y4 := a.y4 + b.y4 }

/-- Componentwise scaling of an RK state. -/
def smulS (c : ℚ) (a : VintageLadder.RK.State) : VintageLadder.RK.State :=
  { y1 := c * a.y1, y2 := c * a.y2, y3 := c * a.y3, y4 := c * a.y4 }

/-- One classical 4th-order Runge-Kutta step of step size `h` for the vector
field `f`, as the spec describes it. -/
def rk4Step (h : ℚ) (f : VintageLadder.RK.State → VintageLadder.RK.State)
    (y : VintageLadder.RK.State) : VintageLadder.RK.State :=
  let k1 := f y
  let k2 := f (addS y (smulS (h / 2) k1))
  let k3 := f (addS y (smulS (h / 2) k2))
  let k4 := f (addS y (smulS h k3))
  addS y (smulS (h / 6) (addS k1 (addS (smulS 2 k2) (addS (smulS 2 k3) k4))))

/-- One internal Huovilainen pass, as the spec describes it: compute the
feedback-corrected input `in − resquad·delay[5]`; update stage 0 via
`delay[0] += tune·(tanh(input·thermal) − stageTanh[0])`; propagate stages 1–3,
each consuming the previous stage's freshly cached tanh and its own cached
tanh, except that stage 3 recomputes `tanh(delay[3]·thermal)`; finally set
`delay[5]` to the average of the new and previous stage-3 outputs and
`delay[4]` to the new stage-3 output. -/
def huovPass (tanh : ℚ → ℚ) (inp resquad thermal tune : ℚ)
    (s : VintageLadder.Huov.State) : VintageLadder.Huov.State :=
  let input := inp - resquad * s.delay5
  let st0 := s.delay0 + tune * (tanh (input * thermal) - s.stageTanh0)
  let t0 := tanh (st0 * thermal)
  let st1 := s.delay1 + tune * (t0 - s.stageTanh1)
  let t1 := tanh (st1 * thermal)
  let st2 := s.delay2 + tune * (t1 - s.stageTanh2)
  let t2 := tanh (st2 * thermal)
  let st3 := s.delay3 + tune * (t2 - tanh (s.delay3 * thermal))
  { stage0 := st0, stage1 := st1, stage2 := st2, stage3 := st3
    stageTanh0 := t0, stageTanh1 := t1, stageTanh2 := t2
    delay0 := st0, delay1 := st1, delay2 := st2, delay3 := st3
    delay4 := st3, delay5 := (st3 + s.delay4) / 2 }

/-- The spec's Huovilainen per-sample step: the internal update runs exactly
twice (2× oversampling) and the output is `delay[5]` after the second pass. -/
def huovStep (tanh : ℚ → ℚ) (inp resquad thermal tune : ℚ)
    (s : VintageLadder.Huov.State) : ℚ × VintageLadder.Huov.State :=
  let s2 := huovPass tanh inp resquad thermal tune
              (huovPass tanh inp resquad thermal tune s)
  (s2.delay5, s2)

/-- The spec's Krajeski per-sample step:
`state[0] = tanh(drive·(in − 4·gRes·(state[4] − gComp·in)))`; each stage `i+1`
becomes `state[i+1] + g·((0.3/1.3)·state[i] + (1/1.3)·delay[i] − state[i+1])`
using the already-updated `state[i]`; each `delay[i]` is refreshed to the new
`state[i]`; output is `state[4]`. -/
def krajStep (tanh : ℚ → ℚ) (inp drive gRes gComp g : ℚ)
    (s : VintageLadder.Kraj.State) : ℚ × VintageLadder.Kraj.State :=
  let st0 := tanh (drive * (inp - 4 * gRes * (s.state4 - gComp * inp)))
  let st1 := s.state1 + g * (0.3 / 1.3 * st0 + 1 / 1.3 * s.delay0 - s.state1)
  let st2 := s.state2 + g * (0.3 / 1.3 * st1 + 1 / 1.3 * s.delay1 - s.state2)
  let st3 := s.state3 + g * (0.3 / 1.3 * st2 + 1 / 1.3 * s.delay2 - s.state3)
  let st4 := s.state4 + g * (0.3 / 1.3 * st3 + 1 / 1.3 * s.delay3 - s.state4)
  ( st4
  , { state0 := st0, state1 := st1, state2 := st2, state3 := st3, state4 := st4
      delay0 := st0, delay1 := st1, delay2 := st2, delay3 := st3
      delay4 := s.delay4 } )

/-- The spec's Improved-model per-sample step with `VT = 0.312`: stage 0
derivative `dV0 = −g·(tanh((drive·in + resonance·V[3])/(2·VT)) + tV[0])`,
stage `i ≥ 1` derivative `dVi = g·(tV[i−1] − tV[i])` using the already-updated
`tV[i−1]`; each stage integrates via `V[i] += (dV_new + dV_old)/2 · step`,
stores `dV_new` into `dV[i]` and refreshes `tV[i] = tanh(V[i]/(2·VT))`;
output is `V[3]`. -/
def impStep (tanh : ℚ → ℚ) (step inp drive resonance g : ℚ)
    (s : VintageLadder.Improved.State) : ℚ × VintageLadder.Improved.State :=
  let vt : ℚ := 0.312
  let dV0 := -g * (tanh ((drive * inp + resonance * s.v3) / (2 * vt)) + s.tv0)
  let v0 := s.v0 + (dV0 + s.dv0) / 2 * step
  let tv0 := tanh (v0 / (2 * vt))
  let dV1 := g * (tv0 - s.tv1)
  let v1 := s.v1 + (dV1 + s.dv1) / 2 * step
  let tv1 := tanh (v1 / (2 * vt))
  let dV2 := g * (tv1 - s.tv2)
  let v2 := s.v2 + (dV2 + s.dv2) / 2 * step
  let tv2 := tanh (v2 / (2 * vt))
  let dV3 := g * (tv2 - s.tv3)
  let v3 := s.v3 + (dV3 + s.dv3) / 2 * step
  let tv3 := tanh (v3 / (2 * vt))
  ( v3
  , { v0, v1, v2, v3, dv0 := dV0, dv1 := dV1, dv2 := dV2, dv3 := dV3,
      tv0, tv1, tv2, tv3 } )

end VintageLadderSpec

namespace VintageLadder

/-- A concrete host configuration used by the closed witness statements. -/
def cfg0 : Host :=
  { note_to_pitch_ignoring_tuning := fun _ => 1
    MIDI_0_FREQ := 8
    dsamplerate_os := 96000
    dsamplerate_os_inv := 1 / 96000
    pi := 3
    tanh := id
    exp := id }

/-- An all-zero, all-active batch state used by the closed witness
statements. -/
def qfuOn (nC nR : ℕ) : QFUState nC nR :=
  { C := fun _ _ => 0, R := fun _ _ => 0, active := fun _ => true }

/-- An all-zero, all-inactive batch state used by the closed witness
statements. -/
def qfu0 (nC nR : ℕ) : QFUState nC nR :=
  { C := fun _ _ => 0, R := fun _ _ => 0, active := fun _ => false }

/-- The all-zero input / output-scratch vector used by the closed witness
statements. -/
def zv : Fin 4 → ℚ := fun _ => 0

end VintageLadder

namespace VintageLadder

/-- Claim C2: for every pitch, `clampedFrequency` returns the host's
pitch-to-frequency conversion of `pitch + 69` clamped to
`[5, 0.3 · dsamplerate_os]`; in particular (whenever the internal sample rate
makes the interval nonempty, `5 ≤ 0.3 · dsamplerate_os`) the result is at
least 5, hence strictly positive, and at most `0.3 · dsamplerate_os`. The
function is total: no input is rejected. -/
theorem C2_clampedFrequency_clamps (cfg : Host) (pitch : ℚ)
    (hsr : 5 ≤ cfg.dsamplerate_os * 0.3) :
    Common.clampedFrequency cfg pitch =
      Common.limit_range
        (cfg.note_to_pitch_ignoring_tuning (pitch + 69) * cfg.MIDI_0_FREQ)
        5 (cfg.dsamplerate_os * 0.3) ∧
    5 ≤ Common.clampedFrequency cfg pitch ∧
    0 < Common.clampedFrequency cfg pitch ∧
    Common.clampedFrequency cfg pitch ≤ cfg.dsamplerate_os * 0.3 := by
  refine ⟨rfl, le_max_left _ _, lt_of_lt_of_le (by norm_num) (le_max_left _ _), ?_⟩
  exact max_le hsr (min_le_right _ _)

/-- Witness for C2 at a concrete host configuration. -/
theorem C2_clampedFrequency_clamps_witness :
    (5 : ℚ) ≤ ({ note_to_pitch_ignoring_tuning := fun _ => 1, MIDI_0_FREQ := 8,
                 dsamplerate_os := 96000, dsamplerate_os_inv := 1 / 96000,
                 pi := 3, tanh := id, exp := id } : Host).dsamplerate_os * 0.3 ∧
    (5 ≤ Common.clampedFrequency
      { note_to_pitch_ignoring_tuning := fun _ => 1, MIDI_0_FREQ := 8,
        dsamplerate_os := 96000, dsamplerate_os_inv := 1 / 96000,
        pi := 3, tanh := id, exp := id } 60) :=
  ⟨by norm_num,
   (C2_clampedFrequency_clamps
      { note_to_pitch_ignoring_tuning := fun _ => 1, MIDI_0_FREQ := 8,
        dsamplerate_os := 96000, dsamplerate_os_inv := 1 / 96000,
        pi := 3, tanh := id, exp := id } 60 (by norm_num)).2.1⟩

/-- Claim C3: for every requested resonance value (including values below 0
and above 0.994), the Huovilainen coefficient derivation produces a resonance
coefficient in `[0, 0.994]` — it equals the requested resonance clamped to
that interval — and `resquad = 4 · (clamped resonance) · acr`. -/
theorem C3_huov_resonance_clamped (cfg : Host) (freq reso : ℚ) :
    0 ≤ (Huov.makeCoefficients cfg freq reso).res ∧
    (Huov.makeCoefficients cfg freq reso).res ≤ 0.994 ∧
    (Huov.makeCoefficients cfg freq reso).res = Common.limit_range reso 0 0.994 ∧
    (Huov.makeCoefficients cfg freq reso).resquad =
      4 * (Huov.makeCoefficients cfg freq reso).res *
        (Huov.makeCoefficients cfg freq reso).acr := by
  refine ⟨?_, ?_, rfl, rfl⟩
  · exact le_max_left _ _
  · exact max_le (by norm_num) (min_le_right _ _)

/-- The RK `clip` with inverse saturation `1/sat` is the spec's cubic
soft-clip `S`. -/
theorem clip_eq_S (x sat : ℚ) :
    RK.clip x sat (1 / sat) = VintageLadderSpec.S sat x := by
  simp only [RK.clip, VintageLadderSpec.S, mul_one_div]
  rcases lt_or_le 1 (x / sat) with h1 | h1
  · rw [if_pos h1, min_eq_right h1.le, max_eq_right (by norm_num : (-1 : ℚ) ≤ 1)]
    ring
  · rw [if_neg (not_lt.mpr h1)]
    rcases lt_or_le (x / sat) (-1) with h2 | h2
    · rw [if_pos h2, min_eq_left (h2.le.trans (by norm_num)), max_eq_left h2.le]
      ring
    · rw [if_neg (not_lt.mpr h2), min_eq_left h1, max_eq_right h2]
      ring

/-- Claim C4: one RK-model scalar step is exactly one classical 4th-order
Runge-Kutta step (step size = one internal sample period) of the spec's
four-stage saturating ladder ODE, provided the coefficient vector carries a
saturation pair of the form `(sat, 1/sat)`; and the batch output of an active
lane is the updated `y4` of that lane's solver run. -/
theorem C4_rk_step_is_rk4 (cfg : Host) (st x k r sat satInv : ℚ) (y : RK.State)
    (f : QFUState 4 4) (inm out0 : Fin 4 → ℚ) (v : Fin 4)
    (hs : satInv = 1 / sat) (hv : f.active v = true) :
    RK.rungekutteSolver st x y k r sat satInv =
      VintageLadderSpec.rk4Step st (VintageLadderSpec.rkField x k r sat) y ∧
    (RK.process cfg f inm out0).1 v =
      (RK.rungekutteSolver cfg.dsamplerate_os_inv (inm v) (RK.unpackState f v)
        (f.C 0 v) (f.C 1 v) (f.C 2 v) (f.C 3 v)).y4 := by
  subst hs
  constructor
  · have hd : ∀ s : RK.State,
        RK.calculateDerivatives x s k r sat (1 / sat) =
          VintageLadderSpec.rkField x k r sat s := by
      intro s
      simp only [RK.calculateDerivatives, VintageLadderSpec.rkField, clip_eq_S]
    have haxpy : ∀ (s : RK.State) (c : ℚ) (d : RK.State),
        RK.axpy s c d = VintageLadderSpec.addS s (VintageLadderSpec.smulS c d) := by
      intro s c d
      rfl
    have hhalf : (0.5 : ℚ) * st = st / 2 := by ring
    simp only [RK.rungekutteSolver, VintageLadderSpec.rk4Step, hd, haxpy, hhalf,
      VintageLadderSpec.addS, VintageLadderSpec.smulS, RK.State.mk.injEq]
    refine ⟨?_, ?_, ?_, ?_⟩ <;> ring
  · simp only [RK.process, hv, if_true]

/-- Witness for C4 at a concrete coefficient vector, state and batch. -/
theorem C4_rk_step_is_rk4_witness :
    ((1 : ℚ) / 3 = 1 / 3 ∧ (qfuOn 4 4).active 0 = true) ∧
    (RK.rungekutteSolver 1 0 ⟨0, 0, 0, 0⟩ 1 1 3 (1 / 3) =
       VintageLadderSpec.rk4Step 1 (VintageLadderSpec.rkField 0 1 1 3) ⟨0, 0, 0, 0⟩ ∧
     (RK.process cfg0 (qfuOn 4 4) zv zv).1 0 =
       (RK.rungekutteSolver cfg0.dsamplerate_os_inv (zv 0)
         (RK.unpackState (qfuOn 4 4) 0)
         ((qfuOn 4 4).C 0 0) ((qfuOn 4 4).C 1 0) ((qfuOn 4 4).C 2 0)
         ((qfuOn 4 4).C 3 0)).y4) :=
  ⟨⟨rfl, rfl⟩,
   C4_rk_step_is_rk4 cfg0 1 0 1 1 3 (1 / 3) ⟨0, 0, 0, 0⟩ (qfuOn 4 4) zv zv 0 rfl rfl⟩

/-- Claim C5: one Huovilainen scalar step runs its internal update exactly
twice (2× oversampling), each pass following the spec's stage formulas with
the stage-3 tanh recomputed from `delay[3]`, the half-sample phase
compensation `delay[5] = (new + previous stage-3 output)/2` and
`delay[4] = new stage-3 output; the returned output is `delay[5]` after the
second pass. -/
theorem C5_huov_step_spec (cfg : Host) (inp : ℚ) (c : Huov.Coeff) (s : Huov.State) :
    Huov.processCore cfg inp c s =
      VintageLadderSpec.huovStep cfg.tanh inp c.resquad c.thermal c.tune s := by
  have havg : ∀ a b : ℚ, (a + b) * 0.5 = (a + b) / 2 := by
    intro a b
    ring
  have hp : ∀ t : Huov.State,
      Huov.pass cfg.tanh inp c.resquad c.thermal c.tune t =
        VintageLadderSpec.huovPass cfg.tanh inp c.resquad c.thermal c.tune t := by
    intro t
    simp only [Huov.pass, VintageLadderSpec.huovPass, havg]
  simp only [Huov.processCore, VintageLadderSpec.huovStep, hp]

/-- Claim C6: one Krajeski scalar step saturates the input stage with the
resonance feedback `state[0] = tanh(drive·(in − 4·gRes·(state[4] − gComp·in)))`,
updates each stage `i+1` by the one-pole blend
`state[i+1] + g·((0.3/1.3)·state[i] + (1/1.3)·delay[i] − state[i+1])`,
refreshes `delay[i]` to the new `state[i]`, and returns `state[4]`. -/
theorem C6_kraj_step_spec (cfg : Host) (inp : ℚ) (c : Kraj.Coeff) (s : Kraj.State) :
    Kraj.processCore cfg inp c s =
      VintageLadderSpec.krajStep cfg.tanh inp c.drive c.gRes c.gComp c.g s := by
  simp only [Kraj.processCore, VintageLadderSpec.krajStep, Prod.mk.injEq,
    Kraj.State.mk.injEq]
  refine ⟨?_, ?_, ?_, ?_, ?_, ?_, ?_, ?_, ?_, ?_, ?_⟩ <;> ring_nf

/-- Claim C7: one Improved-model scalar step computes, in stage order, the
spec's derivatives (`dV0 = −g·(tanh((drive·in + resonance·V[3])/(2·VT)) + tV[0])`,
`dVi = g·(tV[i−1] − tV[i])` with the already-updated `tV[i−1]`), integrates
each stage trapezoidally by `V[i] += (dV_new + dV_old)/2 · step` with step =
one internal sample period, stores the new derivative into `dV[i]`, refreshes
`tV[i] = tanh(V[i]/(2·VT))` with `VT = 0.312`, and returns `V[3]`. -/
theorem C7_improved_step_spec (cfg : Host) (inp : ℚ) (c : Improved.Coeff)
    (s : Improved.State) :
    Improved.processCore cfg inp c s =
      VintageLadderSpec.impStep cfg.tanh cfg.dsamplerate_os_inv inp
        c.drive c.reso c.g s := by
  have hh : ∀ a b d : ℚ, (a + b) * 0.5 * d = (a + b) / 2 * d := by
    intro a b d
    ring
  simp only [Improved.processCore, VintageLadderSpec.impStep, Improved.VT, hh]

/-- Claim C10: after every Huovilainen scalar step, for arbitrary prior
registers, the first four delay taps are synchronized with the stage outputs:
`delay[k] = stage[k]` for `k = 0..3`. -/
theorem C10_huov_delay_stage_sync (cfg : Host) (inp : ℚ) (c : Huov.Coeff)
    (s : Huov.State) :
    ((Huov.processCore cfg inp c s).2).delay0 = ((Huov.processCore cfg inp c s).2).stage0 ∧
    ((Huov.processCore cfg inp c s).2).delay1 = ((Huov.processCore cfg inp c s).2).stage1 ∧
    ((Huov.processCore cfg inp c s).2).delay2 = ((Huov.processCore cfg inp c s).2).stage2 ∧
    ((Huov.processCore cfg inp c s).2).delay3 = ((Huov.processCore cfg inp c s).2).stage3 :=
  ⟨rfl, rfl, rfl, rfl⟩

/-- Claim C9: each model's single-lane step is deterministic — identical host
constants, input, coefficients and prior registers yield identical output and
next registers; the steps depend on nothing else. -/
theorem C9_determinism :
    (∀ (st st' x x' k k' r r' sa sa' si si' : ℚ) (y y' : RK.State),
        st = st' → x = x' → k = k' → r = r' → sa = sa' → si = si' → y = y' →
        RK.rungekutteSolver st x y k r sa si =
          RK.rungekutteSolver st' x' y' k' r' sa' si') ∧
    (∀ (cfg cfg' : Host) (x x' : ℚ) (c c' : Huov.Coeff) (s s' : Huov.State),
        cfg = cfg' → x = x' → c = c' → s = s' →
        Huov.processCore cfg x c s = Huov.processCore cfg' x' c' s') ∧
    (∀ (cfg cfg' : Host) (x x' : ℚ) (c c' : Kraj.Coeff) (s s' : Kraj.State),
        cfg = cfg' → x = x' → c = c' → s = s' →
        Kraj.processCore cfg x c s = Kraj.processCore cfg' x' c' s') ∧
    (∀ (cfg cfg' : Host) (x x' : ℚ) (c c' : Improved.Coeff) (s s' : Improved.State),
        cfg = cfg' → x = x' → c = c' → s = s' →
        Improved.processCore cfg x c s = Improved.processCore cfg' x' c' s') := by
  refine ⟨?_, ?_, ?_, ?_⟩ <;> (intros; subst_vars; rfl)

/-- Witness for C9 at concrete inputs for all four models. -/
theorem C9_determinism_witness :
    RK.rungekutteSolver 1 0 ⟨0, 0, 0, 0⟩ 1 1 3 (1 / 3) =
      RK.rungekutteSolver 1 0 ⟨0, 0, 0, 0⟩ 1 1 3 (1 / 3) ∧
    Huov.processCore cfg0 0 ⟨1, 0, 1, 1, 1, 0⟩ ⟨0, 0, 0, 0, 0, 0, 0, 0, 0, 0, 0, 0, 0⟩ =
      Huov.processCore cfg0 0 ⟨1, 0, 1, 1, 1, 0⟩ ⟨0, 0, 0, 0, 0, 0, 0, 0, 0, 0, 0, 0, 0⟩ ∧
    Kraj.processCore cfg0 0 ⟨1, 0, 1, 1, 0, 1, 1⟩ ⟨0, 0, 0, 0, 0, 0, 0, 0, 0, 0⟩ =
      Kraj.processCore cfg0 0 ⟨1, 0, 1, 1, 0, 1, 1⟩ ⟨0, 0, 0, 0, 0, 0, 0, 0, 0, 0⟩ ∧
    Improved.processCore cfg0 0 ⟨1, 0, 1, 1, 1⟩ ⟨0, 0, 0, 0, 0, 0, 0, 0, 0, 0, 0, 0⟩ =
      Improved.processCore cfg0 0 ⟨1, 0, 1, 1, 1⟩ ⟨0, 0, 0, 0, 0, 0, 0, 0, 0, 0, 0, 0⟩ :=
  ⟨C9_determinism.1 1 1 0 0 1 1 1 1 3 3 (1 / 3) (1 / 3) ⟨0, 0, 0, 0⟩ ⟨0, 0, 0, 0⟩
      rfl rfl rfl rfl rfl rfl rfl,
   C9_determinism.2.1 cfg0 cfg0 0 0 _ _ _ _ rfl rfl rfl rfl,
   C9_determinism.2.2.1 cfg0 cfg0 0 0 _ _ _ _ rfl rfl rfl rfl,
   C9_determinism.2.2.2 cfg0 cfg0 0 0 _ _ _ _ rfl rfl rfl rfl⟩

/-- Claim C1: for every batch-processing call of each of the four models, an
inactive lane `v` passes through unmodified: every register plane of lane `v`
keeps its pre-call value, and no output is written to lane `v` (the output
slot keeps whatever indeterminate value the stack array held), regardless of
the input vector and of what the active lanes compute. -/
theorem C1_inactive_lane_passthrough (cfg : Host) (v : Fin 4)
    (f4 : QFUState 4 4) (f6 : QFUState 6 13) (f7 : QFUState 7 10)
    (f5 : QFUState 5 12) (inm out0 : Fin 4 → ℚ)
    (i4 : Fin 4) (i13 : Fin 13) (i10 : Fin 10) (i12 : Fin 12)
    (h4 : f4.active v = false) (h6 : f6.active v = false)
    (h7 : f7.active v = false) (h5 : f5.active v = false) :
    (((RK.process cfg f4 inm out0).2).R i4 v = f4.R i4 v ∧
      (RK.process cfg f4 inm out0).1 v = out0 v) ∧
    (((Huov.process cfg f6 inm out0).2).R i13 v = f6.R i13 v ∧
      (Huov.process cfg f6 inm out0).1 v = out0 v) ∧
    (((Kraj.process cfg f7 inm out0).2).R i10 v = f7.R i10 v ∧
      (Kraj.process cfg f7 inm out0).1 v = out0 v) ∧
    (((Improved.process cfg f5 inm out0).2).R i12 v = f5.R i12 v ∧
      (Improved.process cfg f5 inm out0).1 v = out0 v) := by
  simp [RK.process, Huov.process, Kraj.process, Improved.process, h4, h6, h7, h5]

/-- Witness for C1 at a concrete all-inactive batch for all four models. -/
theorem C1_inactive_lane_passthrough_witness :
    ((qfu0 4 4).active 0 = false ∧ (qfu0 6 13).active 0 = false ∧
     (qfu0 7 10).active 0 = false ∧ (qfu0 5 12).active 0 = false) ∧
    ((((RK.process cfg0 (qfu0 4 4) zv zv).2).R 0 0 = (qfu0 4 4).R 0 0 ∧
       (RK.process cfg0 (qfu0 4 4) zv zv).1 0 = zv 0) ∧
     (((Huov.process cfg0 (qfu0 6 13) zv zv).2).R 0 0 = (qfu0 6 13).R 0 0 ∧
       (Huov.process cfg0 (qfu0 6 13) zv zv).1 0 = zv 0) ∧
     (((Kraj.process cfg0 (qfu0 7 10) zv zv).2).R 0 0 = (qfu0 7 10).R 0 0 ∧
       (Kraj.process cfg0 (qfu0 7 10) zv zv).1 0 = zv 0) ∧
     (((Improved.process cfg0 (qfu0 5 12) zv zv).2).R 0 0 = (qfu0 5 12).R 0 0 ∧
       (Improved.process cfg0 (qfu0 5 12) zv zv).1 0 = zv 0)) :=
  ⟨⟨rfl, rfl, rfl, rfl⟩,
   C1_inactive_lane_passthrough cfg0 0 (qfu0 4 4) (qfu0 6 13) (qfu0 7 10)
     (qfu0 5 12) zv zv 0 0 0 0 rfl rfl rfl rfl⟩

/-- Counterexample to C8 as stated: at requested resonance 2 the derived
resonance coefficient is 12, outside `[0, 6]`, and the inverse saturation
constant is the literal `0.3333333333`, which is not exactly `1/3`. -/
theorem C8_rk_coefficients_counterexample :
    ¬ ((RK.makeCoefficients cfg0 0 2).reso ≤ 6) ∧
    (RK.makeCoefficients cfg0 0 2).satinv ≠ 1 / 3 := by
  constructor
  · norm_num [RK.makeCoefficients]
  · norm_num [RK.makeCoefficients]

/-- Claim C8, amended: for every pitch and every resonance input in `[0, 1]`,
the RK coefficient derivation sets the cutoff coefficient to 2π times the
clamped frequency, the saturation constant pair to `(3.0, 0.3333333333)` (the
latter a decimal approximation of 1/3), and a resonance coefficient
`6 · reso` lying in `[0, 6]`. -/
theorem C8_rk_coefficients_amended (cfg : Host) (freq reso : ℚ)
    (h0 : 0 ≤ reso) (h1 : reso ≤ 1) :
    (RK.makeCoefficients cfg freq reso).cutoff =
      2 * cfg.pi * Common.clampedFrequency cfg freq ∧
    (RK.makeCoefficients cfg freq reso).sat = 3 ∧
    (RK.makeCoefficients cfg freq reso).satinv = 0.3333333333 ∧
    0 ≤ (RK.makeCoefficients cfg freq reso).reso ∧
    (RK.makeCoefficients cfg freq reso).reso ≤ 6 := by
  refine ⟨?_, rfl, rfl, ?_, ?_⟩
  · show Common.clampedFrequency cfg freq * 2 * cfg.pi = _
    ring
  · exact mul_nonneg h0 (by norm_num)
  · show reso * 6 ≤ 6
    linarith

/-- Witness for the amended C8 at a concrete host and resonance 1/2. -/
theorem C8_rk_coefficients_amended_witness :
    ((0 : ℚ) ≤ 1 / 2 ∧ (1 : ℚ) / 2 ≤ 1) ∧
    ((RK.makeCoefficients cfg0 0 (1 / 2)).cutoff =
       2 * cfg0.pi * Common.clampedFrequency cfg0 0 ∧
     (RK.makeCoefficients cfg0 0 (1 / 2)).sat = 3 ∧
     (RK.makeCoefficients cfg0 0 (1 / 2)).satinv = 0.3333333333 ∧
     0 ≤ (RK.makeCoefficients cfg0 0 (1 / 2)).reso ∧
     (RK.makeCoefficients cfg0 0 (1 / 2)).reso ≤ 6) :=
  ⟨⟨by norm_num, by norm_num⟩,
   C8_rk_coefficients_amended cfg0 0 (1 / 2) (by norm_num) (by norm_num)⟩

end VintageLadder
